import Mathlib

/-!
A shallow embedding of the complexity-analysis tool of the
`agentic-tools-mcp` repository (the `analyze_task_complexity` tool:
task scoring, breakdown-suggestion generation, auto-creation of
subtasks, and report rendering), together with theorems settling the
specification claims about it.

Modelling conventions:
* JavaScript numbers are modelled as `ℚ` (the analyzer only performs
  exact additions, divisions by 3, `Math.round`, `Math.min`/`max`).
* Strings are sequences of characters; `String.length`, `take`, and
  `toLower` model the JS `length`, `substring`, `toLowerCase` on the
  ASCII data the analyzer manipulates.
* `undefined`/optional fields are `Option`; the JS truthiness idiom
  `x || d` on numbers is `jsGetOr` (0 is falsy), on arrays presence
  alone decides (arrays are always truthy).
* Thrown exceptions are `Except JsError`; an `Error` instance carries
  a message, any other thrown value does not.
-/

namespace Agentic

/-- JS `x || d` for an optional number: `0` (falsy) falls back to `d`. -/
def jsGetOr (x : Option ℚ) (d : ℚ) : ℚ :=
  match x with
  | some v => if v = 0 then d else v
  | none => d

/-- JS `Math.round`: nearest integer, halves toward positive infinity. -/
def jsRound (q : ℚ) : ℚ := (⌊q + 1/2⌋ : ℤ)

/-- Decimal expansion of a fractional part `0 ≤ q < 1`, fuelled; JS
number printing only ever reaches terminating expansions here. -/
def fracDigits : Nat → ℚ → String
  | 0, _ => ""
  | fuel + 1, q =>
    if q = 0 then ""
    else
      let d : ℤ := ⌊q * 10⌋
      toString d ++ fracDigits fuel (q * 10 - d)

/-- JS default number-to-string (template-literal interpolation `${n}`):
exact for integers, decimal expansion otherwise. -/
def jsNumToString (q : ℚ) : String :=
  let sign := if q < 0 then "-" else ""
  let a := |q|
  let ip : ℤ := ⌊a⌋
  let fp := a - ip
  if fp = 0 then sign ++ toString ip
  else sign ++ toString ip ++ "." ++ fracDigits 20 fp

/-- Substring test on character lists: does `needle` occur inside `hay`?
Models JS `String.prototype.includes`. -/
def listIncludes (needle : List Char) : List Char → Bool
  | [] => needle.isEmpty
  | c :: rest => needle.isPrefixOf (c :: rest) || listIncludes needle rest

/-- JS `s.includes(sub)`. -/
def strIncludes (s sub : String) : Bool :=
  listIncludes sub.toList s.toList

/-- JS `s.toLowerCase()` on the ASCII data handled here: lower-case each
character. -/
def jsToLower (s : String) : String :=
  String.mk (s.toList.map Char.toLower)

/-- Task record as consumed by the analyzer (`Task` model): optional
numeric fields are `Option ℚ`, `dependsOn` an optional id list. -/
structure Task where
  id : String
  name : String
  details : String
  completed : Bool
  status : Option String
  complexity : Option ℚ
  estimatedHours : Option ℚ
  dependsOn : Option (List String)
  projectId : String
  priority : Option ℚ
deriving Repr, DecidableEq

/-- Suggestion payload (`CreateTaskInput`) produced by the breakdown
generator. -/
structure CreateTaskInput where
  name : String
  details : String
  projectId : String
  priority : Option ℚ
  complexity : ℚ
  tags : List String
  estimatedHours : ℚ
deriving Repr, DecidableEq

/-- The fixed 11-term high-complexity vocabulary. -/
def highComplexityKeywords : List String :=
  ["architecture", "system", "integration", "security", "performance",
   "scalability", "database", "api", "framework", "refactor", "migration"]

/-- The fixed 11-term action-verb vocabulary. -/
def actionVerbs : List String :=
  ["implement", "create", "build", "develop", "design", "setup",
   "configure", "test", "deploy", "document", "research"]

/-- Result of `calculateComplexityScore`. -/
structure ScoreResult where
  score : ℚ
  issues : List String
deriving Repr, DecidableEq

/-- Source `calculateComplexityScore`: base = `task.complexity || 5`, six
independent additive heuristics, final score capped by `Math.min(10, ·)`.
The sequential `score += _` / `issues.push(_)` statements of the source
are rendered as a flat sum of guarded increments and a concatenation of
guarded issue segments, in source order. -/
def calculateComplexityScore (task : Task) : ScoreResult :=
  let base := jsGetOr task.complexity 5
  let details := jsToLower task.details
  let highComplexityMatches :=
    (highComplexityKeywords.filter (fun keyword => strIncludes details keyword)).length
  let actionMatches :=
    (actionVerbs.filter (fun verb => strIncludes details verb)).length
  let hoursFlag : Bool :=
    match task.estimatedHours with
    | some h => decide (h ≠ 0) && decide (20 < h)
    | none => false
  let depsFlag : Bool :=
    match task.dependsOn with
    | some l => decide (3 < l.length)
    | none => false
  let score :=
    base
    + (if 50 < task.name.length then 1 else 0)
    + (if 2 < highComplexityMatches then 2 else 0)
    + (if 3 < actionMatches then 1 else 0)
    + (if 500 < task.details.length then 1 else 0)
    + (if hoursFlag then 1 else 0)
    + (if depsFlag then 1 else 0)
  let issues :=
    (if 50 < task.name.length then
      ["Task name is very long, suggesting multiple concerns"] else [])
    ++ (if 2 < highComplexityMatches then
      ["Contains " ++ toString highComplexityMatches ++ " high-complexity keywords"] else [])
    ++ (if 3 < actionMatches then
      ["Contains " ++ toString actionMatches ++ " different action verbs, suggesting multiple tasks"] else [])
    ++ (if 500 < task.details.length then
      ["Task description is very detailed, suggesting high complexity"] else [])
    ++ (match task.estimatedHours with
        | some h => if h ≠ 0 ∧ 20 < h then
            ["High time estimate (" ++ jsNumToString h ++ " hours) suggests complexity"] else []
        | none => [])
    ++ (match task.dependsOn with
        | some l => if 3 < l.length then
            ["Many dependencies (" ++ toString l.length ++ ") suggest complex coordination"] else []
        | none => [])
  { score := min 10 score, issues := issues }

/-- One keyword-triggered breakdown template, already interpolated for a
given task (the source builds the pattern list inside
`generateTaskBreakdownSuggestions`, with template strings over `task`). -/
structure BreakdownPattern where
  keywords : List String
  name : String
  details : String
  tags : List String
deriving Repr, DecidableEq

/-- The five breakdown templates, in source definition order. -/
def breakdownPatterns (task : Task) : List BreakdownPattern :=
  [ { keywords := ["research", "investigate", "analyze"],
      name := "Research and Analysis for " ++ task.name,
      details := "Research requirements, analyze existing solutions, and document findings for: "
        ++ task.details.take 200,
      tags := ["research", "analysis"] },
    { keywords := ["design", "architecture", "plan"],
      name := "Design and Planning for " ++ task.name,
      details := "Create detailed design and implementation plan for: " ++ task.details.take 200,
      tags := ["design", "planning"] },
    { keywords := ["implement", "develop", "build", "code"],
      name := "Core Implementation for " ++ task.name,
      details := "Implement the main functionality for: " ++ task.details.take 200,
      tags := ["implementation", "development"] },
    { keywords := ["test", "testing", "validation"],
      name := "Testing and Validation for " ++ task.name,
      details := "Create and execute tests to validate: " ++ task.details.take 200,
      tags := ["testing", "validation"] },
    { keywords := ["document", "documentation", "guide"],
      name := "Documentation for " ++ task.name,
      details := "Create comprehensive documentation for: " ++ task.details.take 200,
      tags := ["documentation"] } ]

/-- The suggestion pushed for a triggered template: inherits projectId and
priority, complexity `max(1, (task.complexity || 5) - 2)`, hours
`Math.round((task.estimatedHours || 8) / 3)`. -/
def mkPatternSuggestion (task : Task) (pattern : BreakdownPattern) : CreateTaskInput :=
  { name := pattern.name
    details := pattern.details
    projectId := task.projectId
    priority := task.priority
    complexity := max 1 (jsGetOr task.complexity 5 - 2)
    tags := pattern.tags
    estimatedHours := jsRound (jsGetOr task.estimatedHours 8 / 3) }

/-- Source `generateTaskBreakdownSuggestions`: one suggestion per triggered
template, in template order; if none triggered, the fixed three-phase
generic breakdown (Planning, Implementation, Testing). -/
def generateTaskBreakdownSuggestions (task : Task) : List CreateTaskInput :=
  let details := jsToLower task.details
  let suggestions :=
    (breakdownPatterns task).foldl
      (fun acc pattern =>
        if pattern.keywords.any (fun keyword => strIncludes details keyword) then
          acc ++ [mkPatternSuggestion task pattern]
        else acc)
      []
  if suggestions.length = 0 then
    let baseHours := jsGetOr task.estimatedHours 16 / 3
    [ { name := "Planning Phase: " ++ task.name
        details := "Plan and design approach for: " ++ task.details.take 200
        projectId := task.projectId
        priority := task.priority
        complexity := max 1 (jsGetOr task.complexity 5 - 3)
        tags := ["planning"]
        estimatedHours := jsRound baseHours },
      { name := "Implementation Phase: " ++ task.name
        details := "Implement core functionality for: " ++ task.details.take 200
        projectId := task.projectId
        priority := task.priority
        complexity := max 1 (jsGetOr task.complexity 5 - 2)
        tags := ["implementation"]
        estimatedHours := jsRound (baseHours * 2) },
      { name := "Testing Phase: " ++ task.name
        details := "Test and validate implementation for: " ++ task.details.take 200
        projectId := task.projectId
        priority := task.priority
        complexity := max 1 (jsGetOr task.complexity 5 - 3)
        tags := ["testing"]
        estimatedHours := jsRound baseHours } ]
  else suggestions

/-- A complex-task entry: the task spread together with its analysis
score, issues and suggestions. -/
structure ComplexTaskEntry where
  task : Task
  analysisScore : ℚ
  issues : List String
  suggestions : List CreateTaskInput
deriving Repr, DecidableEq

/-- Aggregate result of `analyzeTaskComplexity`. -/
structure ComplexityAnalysisResult where
  complexTasks : List ComplexTaskEntry
  simpleTasksCount : Nat
  totalTasksAnalyzed : Nat
  averageComplexity : ℚ
deriving Repr, DecidableEq

/-- The entry pushed onto `complexTasks` for a task meeting the
threshold. -/
def mkComplexEntry (task : Task) (r : ScoreResult) (suggestBreakdown : Bool) : ComplexTaskEntry :=
  { task := task
    analysisScore := r.score
    issues := r.issues
    suggestions := if suggestBreakdown then generateTaskBreakdownSuggestions task else [] }

/-- The `for` loop of `analyzeTaskComplexity`, as structural recursion:
returns (complexTasks, totalComplexity, tasksWithComplexity) accumulated
in source order (completed or "done" tasks are skipped entirely). -/
def analyzeLoop (threshold : ℚ) (suggestBreakdown : Bool) :
    List Task → List ComplexTaskEntry × ℚ × Nat
  | [] => ([], 0, 0)
  | task :: rest =>
    let (cts, total, count) := analyzeLoop threshold suggestBreakdown rest
    if task.completed || task.status == some "done" then (cts, total, count)
    else
      let analysisResult := calculateComplexityScore task
      if threshold ≤ analysisResult.score then
        (mkComplexEntry task analysisResult suggestBreakdown :: cts,
         analysisResult.score + total, count + 1)
      else (cts, analysisResult.score + total, count + 1)

/-- Source `analyzeTaskComplexity`: scores the non-completed tasks, splits them
at the threshold, and averages their scores. -/
def analyzeTaskComplexity (tasks : List Task) (threshold : ℚ) (suggestBreakdown : Bool) :
    ComplexityAnalysisResult :=
  let (complexTasks, totalComplexity, tasksWithComplexity) :=
    analyzeLoop threshold suggestBreakdown tasks
  { complexTasks := complexTasks
    simpleTasksCount := tasksWithComplexity - complexTasks.length
    totalTasksAnalyzed := tasksWithComplexity
    averageComplexity :=
      if 0 < tasksWithComplexity then totalComplexity / tasksWithComplexity else 0 }

/-- A thrown JS value: either an `Error` instance with a message, or any
other value (whose message is unavailable). -/
inductive JsError where
  | errObj (message : String)
  | other
deriving Repr, DecidableEq

/-- Models `error instanceof Error ? error.message : 'Unknown error'`. -/
def jsErrorMessage : JsError → String
  | .errObj m => m
  | .other => "Unknown error"

/-- Project record; only its id is consumed by this tool. -/
structure Project where
  id : String
deriving Repr, DecidableEq

/-- The record passed to `storage.createSubtask`. -/
structure SubtaskRecord where
  id : String
  name : String
  details : String
  taskId : String
  projectId : String
  completed : Bool
  createdAt : String
  updatedAt : String
deriving Repr, DecidableEq

/-- The storage collaborator surface consumed by the tool; each
operation may throw. -/
structure Storage where
  getTask : String → Except JsError (Option Task)
  getTasks : String → Except JsError (List Task)
  getProjects : Except JsError (List Project)
  createSubtask : SubtaskRecord → Except JsError Unit

/-- The record built for one suggestion of one complex task: empty id
(generated downstream), the parent task id and projectId, not completed,
both timestamps the current instant. -/
def mkSubtaskRecord (t : ComplexTaskEntry) (s : CreateTaskInput) (now : String) : SubtaskRecord :=
  { id := ""
    name := s.name
    details := s.details
    taskId := t.task.id
    projectId := t.task.projectId
    completed := false
    createdAt := now
    updatedAt := now }

/-- Inner loop of `autoCreateSubtasksFromSuggestions`: one awaited
`createSubtask` per suggestion, stopping at the first thrown error.
Returns the outcome and the list of issued calls (the failing call
included). -/
def runSuggestions (storage : Storage) (t : ComplexTaskEntry) (now : String) :
    List CreateTaskInput → Except JsError Unit × List SubtaskRecord
  | [] => (Except.ok (), [])
  | s :: rest =>
    let payload := mkSubtaskRecord t s now
    match storage.createSubtask payload with
    | Except.ok _ =>
      let (r, calls) := runSuggestions storage t now rest
      (r, payload :: calls)
    | Except.error e => (Except.error e, [payload])

/-- Source `autoCreateSubtasksFromSuggestions`: for every complex task and every
suggestion, one `createSubtask` call, in order; an error aborts the
remaining calls and propagates. -/
def autoCreateSubtasksFromSuggestions (storage : Storage) (now : String) :
    List ComplexTaskEntry → Except JsError Unit × List SubtaskRecord
  | [] => (Except.ok (), [])
  | t :: rest =>
    match runSuggestions storage t now t.suggestions with
    | (Except.ok _, calls) =>
      let (r, calls2) := autoCreateSubtasksFromSuggestions storage now rest
      (r, calls ++ calls2)
    | (Except.error e, calls) => (Except.error e, calls)

/-- Models `Number.prototype.toFixed(1)`: one decimal digit, ties away from
zero resolved toward the larger candidate. -/
def toFixed1 (q : ℚ) : String :=
  let n : ℤ := ⌊q * 10 + 1/2⌋
  let sign := if n < 0 then "-" else ""
  let m := n.natAbs
  sign ++ toString (m / 10) ++ "." ++ toString (m % 10)

/-- The per-task section of the report (the `forEach` body). -/
def taskSection (idx : Nat) (t : ComplexTaskEntry) : String :=
  toString (idx + 1) ++ ". **" ++ t.task.name ++ "** (Complexity: "
    ++ jsNumToString t.analysisScore ++ "/10)\n   📝 "
    ++ t.task.details.take 100
    ++ (if 100 < t.task.details.length then "..." else "")
    ++ "\n   ⚠️ Issues: " ++ String.intercalate ", " t.issues
    ++ "\n\n   💡 **Suggested Breakdown:**\n"
    ++ String.intercalate "\n"
        (t.suggestions.map (fun s =>
          "   • " ++ s.name ++ " (Est: " ++ jsNumToString s.estimatedHours ++ "h)"))
    ++ "\n\n"

/-- Source `generateComplexityAnalysisReport`. Mirrors the source exactly,
including the early return on zero complex tasks, which makes the final
else branch (the short next-step pointer) unreachable. -/
def generateComplexityAnalysisReport (results : ComplexityAnalysisResult)
    (threshold : ℚ) (autoCreated : Bool) : String :=
  let report :=
    "🔍 **Task Complexity Analysis Report**\n\n📊 **Summary:**\n• Total tasks analyzed: "
    ++ toString results.totalTasksAnalyzed
    ++ "\n• Complex tasks (≥" ++ jsNumToString threshold ++ "): "
    ++ toString results.complexTasks.length
    ++ "\n• Simple tasks (<" ++ jsNumToString threshold ++ "): "
    ++ toString results.simpleTasksCount
    ++ "\n• Average complexity: " ++ toFixed1 results.averageComplexity
    ++ "/10\n\n"
  if results.complexTasks.length = 0 then
    report ++ "✅ **Great news!** All tasks are within the complexity threshold. Your tasks are well-scoped and manageable."
  else
    let report := report ++ "⚠️ **Complex Tasks Requiring Attention:**\n\n"
    let report := report
      ++ String.join ((results.complexTasks.enum).map (fun p => taskSection p.fst p.snd))
    let report := if autoCreated then
        report ++ "✅ **Auto-created subtasks** for all complex tasks. Check your subtasks to see the breakdown.\n\n"
      else report
    if 0 < results.complexTasks.length then
      let guidance := "\n👉 **Your Actions: Address Complex Tasks & Proceed**\n\n"
      let guidance := guidance ++ (if !autoCreated then
          "1.  **Break Down Complex Tasks:** For each complex task listed above, review the \"Suggested Breakdown.\" You can create these as subtasks using the `create_subtask` tool or simplify the main task using `update_task`.\n    *   Example for `create_subtask`: `create_subtask(\x7b taskId: \"task_id_from_above\", name: \"suggested_subtask_name\", details: \"...\" \x7d)`\n    *   Example for `update_task`: `update_task(\x7b id: \"task_id_from_above\", details: \"simplified_details\", complexity: new_lower_complexity \x7d)`\n\n"
        else
          "1.  **Review Auto-Created Subtasks:** Subtasks have been automatically created based on the suggestions. Review them using `list_subtasks` and refine them if necessary using `update_subtask`.\n    *   Example: `list_subtasks(\x7b taskId: \"task_id_from_above\" \x7d)`\n\n")
      let guidance := guidance
        ++ "2.  **Re-analyze (Optional):** After addressing the complexities, you can re-run this analysis for a specific task to confirm its new complexity score.\n    *   Example: `analyze_task_complexity(\x7b taskId: \"task_id_from_above\" \x7d)`\n\n"
      let guidance := guidance
        ++ "3.  **Determine Next Task:** Once tasks are appropriately scoped, use the `get_next_task_recommendation` tool to decide what to work on next.\n    *   Example: `get_next_task_recommendation(\x7b projectId: \"project_id_if_known_or_relevant\" \x7d)`\n\n"
      let guidance := guidance
        ++ "💡 **Pro Tip:** Well-scoped tasks lead to better progress tracking and less overwhelming work sessions!"
      report ++ guidance
    else
      report ++ "\n\n👉 **Your Next Step:** You can proceed to determine your next task using `get_next_task_recommendation`.\n    *   Example: `get_next_task_recommendation(\x7b projectId: \"project_id_if_known_or_relevant\" \x7d)`"

/-- The tool response: a single text block plus the error flag (absent
in the source on success, modelled as `false`). -/
structure Response where
  text : String
  isError : Bool
deriving Repr, DecidableEq

/-- Parsed tool arguments, after schema defaults have been applied. -/
structure Args where
  workingDirectory : String
  taskId : Option String
  projectId : Option String
  complexityThreshold : ℚ
  suggestBreakdown : Bool
  autoCreateSubtasks : Bool
deriving Repr, DecidableEq

/-- The top-level `catch` conversion of a thrown value. -/
def catchResponse (e : JsError) : Response :=
  { text := "Error analyzing task complexity: " ++ jsErrorMessage e, isError := true }

/-- The all-projects selection loop: `getTasks` per project in order,
concatenating; a thrown error propagates. -/
def collectAllTasks (storage : Storage) : List Project → Except JsError (List Task)
  | [] => Except.ok []
  | p :: rest =>
    match storage.getTasks p.id with
    | Except.error e => Except.error e
    | Except.ok ts =>
      match collectAllTasks storage rest with
      | Except.error e => Except.error e
      | Except.ok more => Except.ok (ts ++ more)

/-- The handler body after task selection: empty-selection short
circuit, analysis, optional auto-creation (whose thrown errors reach the
top-level catch), report. Also returns the list of `createSubtask`
calls issued. -/
def analyzeSelected (storage : Storage) (now : String) (args : Args)
    (tasksToAnalyze : List Task) : Response × List SubtaskRecord :=
  if tasksToAnalyze.length = 0 then
    ({ text := "No tasks found for analysis.", isError := false }, [])
  else
    let analysisResults :=
      analyzeTaskComplexity tasksToAnalyze args.complexityThreshold args.suggestBreakdown
    if args.autoCreateSubtasks ∧ 0 < analysisResults.complexTasks.length then
      match autoCreateSubtasksFromSuggestions storage now analysisResults.complexTasks with
      | (Except.error e, calls) => (catchResponse e, calls)
      | (Except.ok _, calls) =>
        ({ text := generateComplexityAnalysisReport analysisResults args.complexityThreshold
              args.autoCreateSubtasks,
           isError := false }, calls)
    else
      ({ text := generateComplexityAnalysisReport analysisResults args.complexityThreshold
            args.autoCreateSubtasks,
         isError := false }, [])

/-- The `analyze_task_complexity` handler: task selection (specific id /
project / all projects), analysis, and the top-level try/catch routing
every thrown error to `catchResponse`. Returns the response and the
`createSubtask` calls issued. -/
def handler (storage : Storage) (now : String) (args : Args) : Response × List SubtaskRecord :=
  match args.taskId with
  | some tid =>
    match storage.getTask tid with
    | Except.error e => (catchResponse e, [])
    | Except.ok none =>
      ({ text := "Error: Task with ID \"" ++ tid ++ "\" not found.", isError := true }, [])
    | Except.ok (some task) => analyzeSelected storage now args [task]
  | none =>
    match args.projectId with
    | some pid =>
      match storage.getTasks pid with
      | Except.error e => (catchResponse e, [])
      | Except.ok tasks => analyzeSelected storage now args tasks
    | none =>
      match storage.getProjects with
      | Except.error e => (catchResponse e, [])
      | Except.ok projects =>
        match collectAllTasks storage projects with
        | Except.error e => (catchResponse e, [])
        | Except.ok tasks => analyzeSelected storage now args tasks

/-- A minimal concrete task for counterexamples and witnesses. -/
def baseTask : Task :=
  { id := "task-1"
    name := "a"
    details := ""
    completed := false
    status := none
    complexity := none
    estimatedHours := none
    dependsOn := none
    projectId := "proj-1"
    priority := none }

/-- Written from claim C2's own words, not from the source, for
comparison: base = the stored complexity whenever present, else 5. -/
def claimBase (task : Task) : ℚ :=
  match task.complexity with
  | some c => c
  | none => 5

/-- Written from claim C2's own words, not from the source, for
comparison: min(10, base + sum of the six triggered increments). -/
def claimScore (task : Task) : ℚ :=
  min 10 (claimBase task
    + (if 50 < task.name.length then 1 else 0)
    + (if 2 < ((highComplexityKeywords.filter
        (fun k => strIncludes (jsToLower task.details) k)).length) then 2 else 0)
    + (if 3 < ((actionVerbs.filter
        (fun v => strIncludes (jsToLower task.details) v)).length) then 1 else 0)
    + (if 500 < task.details.length then 1 else 0)
    + (if task.estimatedHours.any (fun h => decide (20 < h)) then 1 else 0)
    + (if task.dependsOn.any (fun l => decide (3 < l.length)) then 1 else 0))

/-- A task of stored complexity 9, above the default threshold. -/
def hardTask : Task := { baseTask with complexity := some 9 }

/-- A task holding a negative stored complexity. -/
def negTask : Task := { baseTask with complexity := some (-5) }

/-- A task holding a stored complexity of 0. -/
def zeroTask : Task := { baseTask with complexity := some 0 }

/-- Negation of the loop skip condition: the task takes part in the
analysis (not completed, status not "done"). -/
def activeTask (t : Task) : Bool := !(t.completed || t.status == some "done")

/-- A storage stub whose every operation succeeds trivially. -/
def okStorage : Storage :=
  { getTask := fun _ => Except.ok none
    getTasks := fun _ => Except.ok []
    getProjects := Except.ok []
    createSubtask := fun _ => Except.ok () }

/-- A storage stub whose every operation throws: lookups with an `Error`
carrying "boom", project enumeration with a non-`Error` value. -/
def throwStorage : Storage :=
  { getTask := fun _ => Except.error (JsError.errObj "boom")
    getTasks := fun _ => Except.error (JsError.errObj "boom")
    getProjects := Except.error JsError.other
    createSubtask := fun _ => Except.error (JsError.errObj "boom") }

/-- Arguments selecting one specific task id. -/
def argsWithTask : Args :=
  { workingDirectory := "/w"
    taskId := some "missing-task"
    projectId := none
    complexityThreshold := 7
    suggestBreakdown := true
    autoCreateSubtasks := false }

/-- Arguments selecting one project. -/
def argsWithProject : Args :=
  { workingDirectory := "/w"
    taskId := none
    projectId := some "proj-1"
    complexityThreshold := 7
    suggestBreakdown := true
    autoCreateSubtasks := false }

/-- Arguments selecting all projects. -/
def argsAllProjects : Args :=
  { workingDirectory := "/w"
    taskId := none
    projectId := none
    complexityThreshold := 7
    suggestBreakdown := true
    autoCreateSubtasks := false }

/-- A concrete suggestion for auto-creation witnesses. -/
def demoSuggestion (n : String) : CreateTaskInput :=
  { name := n
    details := "d"
    projectId := "proj-1"
    priority := none
    complexity := 3
    tags := []
    estimatedHours := 2 }

/-- A concrete complex-task entry with three suggestions. -/
def demoEntry (tid : String) : ComplexTaskEntry :=
  { task := { baseTask with id := tid }
    analysisScore := 8
    issues := []
    suggestions := [demoSuggestion "s1", demoSuggestion "s2", demoSuggestion "s3"] }

lemma ite_nonneg_q (c : Prop) [Decidable c] (a : ℚ) (h : 0 ≤ a) :
    0 ≤ if c then a else (0:ℚ) := by
  split
  · exact h
  · exact le_refl 0

/-- The guarded hours condition of the scorer agrees with the plain
"present and above 20" condition (a positive value is nonzero). -/
lemma hoursFlag_eq (x : Option ℚ) :
    (match x with
      | some h => decide (h ≠ 0) && decide (20 < h)
      | none => false) = x.any (fun h => decide (20 < h)) := by
  cases x with
  | none => rfl
  | some h =>
    by_cases h20 : (20:ℚ) < h
    · have hne : h ≠ 0 := fun he => absurd h20 (by rw [he]; norm_num)
      simp [h20, hne]
    · simp [h20]

/-- The guarded dependency condition of the scorer, as an `Option.any`. -/
lemma depsFlag_eq (x : Option (List String)) :
    (match x with
      | some l => decide (3 < l.length)
      | none => false) = x.any (fun l => decide (3 < l.length)) := by
  cases x <;> rfl

/-- C1 (amended): whenever the stored complexity, if present, is either 0
(falsy, replaced by the default base 5) or at least 1, the computed score
lies within [1, 10]. -/
theorem score_within_range_of_valid_complexity (task : Task)
    (h : ∀ c, task.complexity = some c → c = 0 ∨ 1 ≤ c) :
    1 ≤ (calculateComplexityScore task).score ∧ (calculateComplexityScore task).score ≤ 10 := by
  have hbase : 1 ≤ jsGetOr task.complexity 5 := by
    cases hx : task.complexity with
    | none => norm_num [jsGetOr]
    | some c =>
      rcases h c hx with h0 | h1
      · norm_num [jsGetOr, h0]
      · simp only [jsGetOr]
        split
        · norm_num
        · exact h1
  constructor
  · simp only [calculateComplexityScore, hoursFlag_eq, depsFlag_eq]
    rw [le_min_iff]
    refine ⟨by norm_num, ?_⟩
    have i1 := ite_nonneg_q (50 < task.name.length) (1:ℚ) (by norm_num)
    have i2 := ite_nonneg_q (2 < (highComplexityKeywords.filter
      (fun k => strIncludes (jsToLower task.details) k)).length) (2:ℚ) (by norm_num)
    have i3 := ite_nonneg_q (3 < (actionVerbs.filter
      (fun v => strIncludes (jsToLower task.details) v)).length) (1:ℚ) (by norm_num)
    have i4 := ite_nonneg_q (500 < task.details.length) (1:ℚ) (by norm_num)
    have i5 := ite_nonneg_q ((task.estimatedHours.any (fun h => decide (20 < h))) = true)
      (1:ℚ) (by norm_num)
    have i6 := ite_nonneg_q ((task.dependsOn.any (fun l => decide (3 < l.length))) = true)
      (1:ℚ) (by norm_num)
    linarith
  · simp only [calculateComplexityScore]
    exact min_le_left _ _

/-- C1 witness for the amended theorem, at stored complexity 2. -/
theorem score_within_range_witness :
    1 ≤ (calculateComplexityScore { baseTask with complexity := some 2 }).score ∧
      (calculateComplexityScore { baseTask with complexity := some 2 }).score ≤ 10 :=
  score_within_range_of_valid_complexity { baseTask with complexity := some 2 }
    (fun c hc => Or.inr ((Option.some.inj hc) ▸ (by norm_num : (1:ℚ) ≤ 2)))

/-- C1 counterexample: a task whose stored numeric complexity is -5 keeps
that base (negative numbers are truthy and below the cap), so the score
is -5, outside [1, 10]. -/
theorem score_range_counterexample :
    ¬ (1 ≤ (calculateComplexityScore negTask).score ∧
       (calculateComplexityScore negTask).score ≤ 10) := by
  have c1 : ¬ (50 < ("a" : String).length) := by decide
  have c2 : (highComplexityKeywords.filter (fun k => strIncludes (jsToLower "") k)).length = 0 := by
    decide
  have c3 : (actionVerbs.filter (fun v => strIncludes (jsToLower "") v)).length = 0 := by decide
  have c4 : ¬ (500 < ("" : String).length) := by decide
  have hsc : (calculateComplexityScore negTask).score = -5 := by
    simp [calculateComplexityScore, negTask, baseTask, jsGetOr, c1, c2, c3, c4]
    norm_num
  rw [hsc]
  norm_num

/-- C2 counterexample: for a task whose stored complexity is 0 (present),
the claimed formula gives min(10, 0) = 0 while the code scores 5 — the
base falls back to 5 for a present-but-zero complexity. -/
theorem score_formula_counterexample :
    (calculateComplexityScore zeroTask).score ≠ claimScore zeroTask := by
  have c1 : ¬ (50 < ("a" : String).length) := by decide
  have c2 : (highComplexityKeywords.filter (fun k => strIncludes (jsToLower "") k)).length = 0 := by
    decide
  have c3 : (actionVerbs.filter (fun v => strIncludes (jsToLower "") v)).length = 0 := by decide
  have c4 : ¬ (500 < ("" : String).length) := by decide
  have hsc : (calculateComplexityScore zeroTask).score = 5 := by
    simp [calculateComplexityScore, zeroTask, baseTask, jsGetOr, c1, c2, c3, c4]
    norm_num
  have hcl : claimScore zeroTask = 0 := by
    simp [claimScore, claimBase, zeroTask, baseTask, c1, c2, c3, c4]
  rw [hsc, hcl]
  norm_num

/-- C2 (amended): the score equals min(10, base + sum of the six listed
increments) where the base is the stored complexity when present *and
nonzero* (JS `||`), else 5; and a task whose details contain exactly 3
high-complexity keywords receives an issue string mentioning 3. -/
theorem score_formula_amended (task : Task) :
    (calculateComplexityScore task).score =
      min 10 (jsGetOr task.complexity 5
        + (if 50 < task.name.length then 1 else 0)
        + (if 2 < ((highComplexityKeywords.filter
            (fun k => strIncludes (jsToLower task.details) k)).length) then 2 else 0)
        + (if 3 < ((actionVerbs.filter
            (fun v => strIncludes (jsToLower task.details) v)).length) then 1 else 0)
        + (if 500 < task.details.length then 1 else 0)
        + (if task.estimatedHours.any (fun h => decide (20 < h)) then 1 else 0)
        + (if task.dependsOn.any (fun l => decide (3 < l.length)) then 1 else 0))
    ∧ ((highComplexityKeywords.filter
          (fun k => strIncludes (jsToLower task.details) k)).length = 3 →
        "Contains 3 high-complexity keywords" ∈ (calculateComplexityScore task).issues) := by
  constructor
  · simp only [calculateComplexityScore, hoursFlag_eq, depsFlag_eq]
  · intro h3
    simp only [calculateComplexityScore, h3]
    simp [List.mem_append]
    exact Or.inl (by decide)

/-- C2 witness for the amended theorem: a task whose details are
"api database security" matches exactly 3 high-complexity keywords and
its issues mention 3. -/
theorem score_formula_witness :
    "Contains 3 high-complexity keywords" ∈
      (calculateComplexityScore { baseTask with details := "api database security" }).issues :=
  (score_formula_amended { baseTask with details := "api database security" }).2 (by decide)

/-- The analyzer loop computes, in order: the complex entries of the
active tasks meeting the threshold, the total score of the active tasks,
and the number of active tasks. -/
lemma analyzeLoop_eq (threshold : ℚ) (sb : Bool) (tasks : List Task) :
    analyzeLoop threshold sb tasks =
      (((tasks.filter activeTask).filter
          (fun t => decide (threshold ≤ (calculateComplexityScore t).score))).map
        (fun t => mkComplexEntry t (calculateComplexityScore t) sb),
       ((tasks.filter activeTask).map (fun t => (calculateComplexityScore t).score)).sum,
       (tasks.filter activeTask).length) := by
  induction tasks with
  | nil => simp [analyzeLoop]
  | cons task rest ih =>
    simp only [analyzeLoop, ih]
    by_cases hskip : (task.completed || task.status == some "done") = true
    · have hA : activeTask task = false := by simp [activeTask, hskip]
      simp [List.filter_cons, hA, hskip]
    · have hs : (task.completed || task.status == some "done") = false := by
        simpa using hskip
      have hA : activeTask task = true := by simp [activeTask, hs]
      by_cases hth : threshold ≤ (calculateComplexityScore task).score
      · simp [List.filter_cons, hA, hs, hth]
      · simp [List.filter_cons, hA, hs, hth]

/-- Dropping the kept elements from a count leaves the dropped ones. -/
lemma length_sub_length_filter (l : List α) (p : α → Bool) :
    l.length - (l.filter p).length = (l.filter (fun a => !(p a))).length := by
  induction l with
  | nil => simp
  | cons a t ih =>
    have hle : (t.filter p).length ≤ t.length := List.length_filter_le p t
    cases hpa : p a <;> simp [List.filter_cons, hpa] <;> omega

/-- Below-threshold is the boolean complement of meeting it. -/
lemma not_meets_threshold (threshold : ℚ) :
    (fun t : Task => !(decide (threshold ≤ (calculateComplexityScore t).score)))
      = (fun t : Task => decide ((calculateComplexityScore t).score < threshold)) := by
  funext t
  rcases le_or_lt threshold ((calculateComplexityScore t).score) with h | h
  · simp [h, not_lt.2 h]
  · simp [h, not_le.2 h]

/-- C3: completed or "done" tasks are excluded from the complex list, the
simple count and the average denominator; among active tasks, an entry is
complex iff its score meets the threshold (inclusively), the simple count
is the number of active tasks below the threshold, and the average is the
mean of the active tasks' scores (0 when none). -/
theorem analyzeTaskComplexity_classification (tasks : List Task) (threshold : ℚ) (sb : Bool) :
    (analyzeTaskComplexity tasks threshold sb).complexTasks
      = ((tasks.filter activeTask).filter
          (fun t => decide (threshold ≤ (calculateComplexityScore t).score))).map
          (fun t => mkComplexEntry t (calculateComplexityScore t) sb)
    ∧ (analyzeTaskComplexity tasks threshold sb).totalTasksAnalyzed
      = (tasks.filter activeTask).length
    ∧ (analyzeTaskComplexity tasks threshold sb).simpleTasksCount
      = ((tasks.filter activeTask).filter
          (fun t => decide ((calculateComplexityScore t).score < threshold))).length
    ∧ (analyzeTaskComplexity tasks threshold sb).averageComplexity
      = (if 0 < (tasks.filter activeTask).length then
          ((tasks.filter activeTask).map (fun t => (calculateComplexityScore t).score)).sum
            / ((tasks.filter activeTask).length : ℚ)
         else 0) := by
  have h := analyzeLoop_eq threshold sb tasks
  refine ⟨?_, ?_, ?_, ?_⟩
  · simp [analyzeTaskComplexity, h]
  · simp [analyzeTaskComplexity, h]
  · simp only [analyzeTaskComplexity, h]
    rw [List.length_map, length_sub_length_filter, not_meets_threshold]
  · simp [analyzeTaskComplexity, h]

/-- Folding conditional pushes over a list is filtering then mapping. -/
lemma foldl_push_filter_map {α β : Type} (f : α → Bool) (g : α → β) :
    ∀ (ps : List α) (acc : List β),
      ps.foldl (fun acc p => if f p then acc ++ [g p] else acc) acc
        = acc ++ (ps.filter f).map g := by
  intro ps
  induction ps with
  | nil => intro acc; simp
  | cons p rest ih =>
    intro acc
    cases hp : f p <;> simp [List.filter_cons, hp, ih]

/-- The pattern loop of the suggestion generator is a filter-then-map
over the five templates. -/
lemma breakdown_fold_eq (task : Task) :
    ((breakdownPatterns task).foldl
      (fun acc pattern =>
        if pattern.keywords.any (fun keyword => strIncludes (jsToLower task.details) keyword) then
          acc ++ [mkPatternSuggestion task pattern]
        else acc) [])
    = ((breakdownPatterns task).filter
        (fun p => p.keywords.any (fun k => strIncludes (jsToLower task.details) k))).map
        (mkPatternSuggestion task) := by
  simpa using foldl_push_filter_map
    (fun p : BreakdownPattern => p.keywords.any (fun k => strIncludes (jsToLower task.details) k))
    (mkPatternSuggestion task) (breakdownPatterns task) []

/-- When some template triggers, the generator returns exactly the
triggered templates' suggestions, in template order. -/
lemma suggestions_of_trigger (task : Task)
    (h : ((breakdownPatterns task).any
      (fun p => p.keywords.any (fun k => strIncludes (jsToLower task.details) k))) = true) :
    generateTaskBreakdownSuggestions task
      = ((breakdownPatterns task).filter
          (fun p => p.keywords.any (fun k => strIncludes (jsToLower task.details) k))).map
          (mkPatternSuggestion task) := by
  obtain ⟨p, hp, hcond⟩ := List.any_eq_true.mp h
  have hne : ((breakdownPatterns task).filter
      (fun p => p.keywords.any (fun k => strIncludes (jsToLower task.details) k))) ≠ [] := by
    intro hnil
    rw [List.filter_eq_nil_iff] at hnil
    exact hnil p hp hcond
  simp only [generateTaskBreakdownSuggestions, breakdown_fold_eq]
  rw [if_neg]
  simpa using hne

/-- When no template triggers, the generator returns the fixed generic
three-phase breakdown. -/
lemma suggestions_of_no_trigger (task : Task)
    (h : ((breakdownPatterns task).any
      (fun p => p.keywords.any (fun k => strIncludes (jsToLower task.details) k))) = false) :
    generateTaskBreakdownSuggestions task
      = [ { name := "Planning Phase: " ++ task.name
            details := "Plan and design approach for: " ++ task.details.take 200
            projectId := task.projectId
            priority := task.priority
            complexity := max 1 (jsGetOr task.complexity 5 - 3)
            tags := ["planning"]
            estimatedHours := jsRound (jsGetOr task.estimatedHours 16 / 3) },
          { name := "Implementation Phase: " ++ task.name
            details := "Implement core functionality for: " ++ task.details.take 200
            projectId := task.projectId
            priority := task.priority
            complexity := max 1 (jsGetOr task.complexity 5 - 2)
            tags := ["implementation"]
            estimatedHours := jsRound (jsGetOr task.estimatedHours 16 / 3 * 2) },
          { name := "Testing Phase: " ++ task.name
            details := "Test and validate implementation for: " ++ task.details.take 200
            projectId := task.projectId
            priority := task.priority
            complexity := max 1 (jsGetOr task.complexity 5 - 3)
            tags := ["testing"]
            estimatedHours := jsRound (jsGetOr task.estimatedHours 16 / 3) } ] := by
  have hfil : ((breakdownPatterns task).filter
      (fun p => p.keywords.any (fun k => strIncludes (jsToLower task.details) k))) = [] := by
    rw [List.filter_eq_nil_iff]
    intro p hp
    rw [List.any_eq_false] at h
    simpa using h p hp
  simp only [generateTaskBreakdownSuggestions]
  rw [breakdown_fold_eq, hfil]
  simp

/-- The generator never returns an empty list. -/
lemma generateTaskBreakdownSuggestions_ne_nil (task : Task) :
    generateTaskBreakdownSuggestions task ≠ [] := by
  simp only [generateTaskBreakdownSuggestions]
  split
  · simp
  · rename_i hlen
    intro hc
    exact hlen (by rw [hc]; rfl)

/-- C5: when no breakdown-template keyword occurs in the details, the
generator yields exactly the generic Planning / Implementation / Testing
phases with complexity offsets -3, -2, -3 floored at 1, and hours
round(b), round(2b), round(b) for b = (estimatedHours or 16)/3, rounded
independently. -/
theorem generic_breakdown_of_no_trigger (task : Task)
    (h : ∀ p ∈ breakdownPatterns task, ∀ k ∈ p.keywords,
      strIncludes (jsToLower task.details) k = false) :
    generateTaskBreakdownSuggestions task
      = [ { name := "Planning Phase: " ++ task.name
            details := "Plan and design approach for: " ++ task.details.take 200
            projectId := task.projectId
            priority := task.priority
            complexity := max 1 (jsGetOr task.complexity 5 - 3)
            tags := ["planning"]
            estimatedHours := jsRound (jsGetOr task.estimatedHours 16 / 3) },
          { name := "Implementation Phase: " ++ task.name
            details := "Implement core functionality for: " ++ task.details.take 200
            projectId := task.projectId
            priority := task.priority
            complexity := max 1 (jsGetOr task.complexity 5 - 2)
            tags := ["implementation"]
            estimatedHours := jsRound (2 * (jsGetOr task.estimatedHours 16 / 3)) },
          { name := "Testing Phase: " ++ task.name
            details := "Test and validate implementation for: " ++ task.details.take 200
            projectId := task.projectId
            priority := task.priority
            complexity := max 1 (jsGetOr task.complexity 5 - 3)
            tags := ["testing"]
            estimatedHours := jsRound (jsGetOr task.estimatedHours 16 / 3) } ] := by
  have hany : ((breakdownPatterns task).any
      (fun p => p.keywords.any (fun k => strIncludes (jsToLower task.details) k))) = false := by
    rw [List.any_eq_false]
    intro p hp
    simp only [Bool.not_eq_true, List.any_eq_false]
    intro k hk
    simpa using h p hp k hk
  rw [suggestions_of_no_trigger task hany]
  norm_num [mul_comm]

/-- C5 witness: a task whose details hold no template keyword gets the
three generic phases. -/
theorem generic_breakdown_witness :
    (generateTaskBreakdownSuggestions { baseTask with details := "xyz" }).length = 3 := by
  rw [generic_breakdown_of_no_trigger { baseTask with details := "xyz" } (by decide)]
  rfl

/-- C6: suggestions are the triggered templates mapped in fixed template
order (at most one each, no deduplication or reordering); in particular
details "test this implementation" produce the implementation suggestion
then the testing suggestion. -/
theorem breakdown_template_order :
    (∀ task : Task,
      ((breakdownPatterns task).any
        (fun p => p.keywords.any (fun k => strIncludes (jsToLower task.details) k))) = true →
      generateTaskBreakdownSuggestions task
        = ((breakdownPatterns task).filter
            (fun p => p.keywords.any (fun k => strIncludes (jsToLower task.details) k))).map
            (mkPatternSuggestion task))
    ∧ (∀ task : Task, task.details = "test this implementation" →
      generateTaskBreakdownSuggestions task
        = [ { name := "Core Implementation for " ++ task.name
              details := "Implement the main functionality for: " ++ task.details.take 200
              projectId := task.projectId
              priority := task.priority
              complexity := max 1 (jsGetOr task.complexity 5 - 2)
              tags := ["implementation", "development"]
              estimatedHours := jsRound (jsGetOr task.estimatedHours 8 / 3) },
            { name := "Testing and Validation for " ++ task.name
              details := "Create and execute tests to validate: " ++ task.details.take 200
              projectId := task.projectId
              priority := task.priority
              complexity := max 1 (jsGetOr task.complexity 5 - 2)
              tags := ["testing", "validation"]
              estimatedHours := jsRound (jsGetOr task.estimatedHours 8 / 3) } ]) := by
  constructor
  · exact suggestions_of_trigger
  · intro task hdet
    have k1 : (["research", "investigate", "analyze"].any
      (fun k => strIncludes (jsToLower "test this implementation") k)) = false := by decide
    have k2 : (["design", "architecture", "plan"].any
      (fun k => strIncludes (jsToLower "test this implementation") k)) = false := by decide
    have k3 : (["implement", "develop", "build", "code"].any
      (fun k => strIncludes (jsToLower "test this implementation") k)) = true := by decide
    have k4 : (["test", "testing", "validation"].any
      (fun k => strIncludes (jsToLower "test this implementation") k)) = true := by decide
    have k5 : (["document", "documentation", "guide"].any
      (fun k => strIncludes (jsToLower "test this implementation") k)) = false := by decide
    have htrig : ((breakdownPatterns task).any
        (fun p => p.keywords.any (fun k => strIncludes (jsToLower task.details) k))) = true := by
      simp [breakdownPatterns, hdet, k1, k2, k3, k4, k5]
    rw [suggestions_of_trigger task htrig]
    simp [breakdownPatterns, hdet, k1, k2, k3, k4, k5, List.filter_cons, mkPatternSuggestion]

/-- C6 witness: at a concrete task with those details (other fields from
the base sample), the two suggestions appear in template order. -/
theorem breakdown_template_order_witness :
    (generateTaskBreakdownSuggestions { baseTask with details := "test this implementation" }).map
        (fun s => s.name)
      = ["Core Implementation for a", "Testing and Validation for a"] := by
  rw [breakdown_template_order.2 { baseTask with details := "test this implementation" } rfl]
  rfl

/-- C8: every entry of the complex list carries a non-empty suggestion
list when breakdown suggestions were requested. -/
theorem complex_entries_have_suggestions (tasks : List Task) (threshold : ℚ)
    (e : ComplexTaskEntry)
    (h : e ∈ (analyzeTaskComplexity tasks threshold true).complexTasks) :
    e.suggestions ≠ [] := by
  have hc := analyzeLoop_eq threshold true tasks
  have hx : e ∈ ((tasks.filter activeTask).filter
      (fun t => decide (threshold ≤ (calculateComplexityScore t).score))).map
      (fun t => mkComplexEntry t (calculateComplexityScore t) true) := by
    simpa [analyzeTaskComplexity, hc] using h
  obtain ⟨t, _, rfl⟩ := List.mem_map.mp hx
  simpa [mkComplexEntry] using generateTaskBreakdownSuggestions_ne_nil t

/-- C8 witness: a concrete complex entry (complexity 9, threshold 7)
carries suggestions. -/
theorem complex_entries_have_suggestions_witness :
    (mkComplexEntry hardTask (calculateComplexityScore hardTask) true).suggestions ≠ [] := by
  have c1 : ¬ (50 < ("a" : String).length) := by decide
  have c2 : (highComplexityKeywords.filter (fun k => strIncludes (jsToLower "") k)).length = 0 := by
    decide
  have c3 : (actionVerbs.filter (fun v => strIncludes (jsToLower "") v)).length = 0 := by decide
  have c4 : ¬ (500 < ("" : String).length) := by decide
  have hsc : (calculateComplexityScore hardTask).score = 9 := by
    simp [calculateComplexityScore, hardTask, baseTask, jsGetOr, c1, c2, c3, c4]
    norm_num
  have hdec : decide ((7:ℚ) ≤ 9) = true := by
    simp only [decide_eq_true_eq]
    norm_num
  refine complex_entries_have_suggestions [hardTask] 7 _ ?_
  rw [analyzeTaskComplexity, analyzeLoop_eq]
  have hact : activeTask hardTask = true := by decide
  simp [hact, hsc, hdec]

/-- C10: a stored 0 is falsy, hence treated as absent: scoring and
suggestion generation behave identically for complexity 0 and for no
complexity, and likewise for estimatedHours 0; with estimatedHours 0 the
template branch estimates round(8/3) hours per suggestion and the
generic branch round(16/3), round(16/3 * 2), round(16/3). -/
theorem zero_treated_as_absent :
    (∀ task : Task,
      calculateComplexityScore { task with complexity := some 0 }
        = calculateComplexityScore { task with complexity := none })
    ∧ (∀ task : Task,
      generateTaskBreakdownSuggestions { task with complexity := some 0 }
        = generateTaskBreakdownSuggestions { task with complexity := none })
    ∧ (∀ task : Task,
      generateTaskBreakdownSuggestions { task with estimatedHours := some 0 }
        = generateTaskBreakdownSuggestions { task with estimatedHours := none })
    ∧ (∀ task : Task, task.estimatedHours = some 0 →
        (((breakdownPatterns task).any
            (fun p => p.keywords.any (fun k => strIncludes (jsToLower task.details) k))) = true →
          ∀ s ∈ generateTaskBreakdownSuggestions task, s.estimatedHours = jsRound (8 / 3))
        ∧ (((breakdownPatterns task).any
            (fun p => p.keywords.any (fun k => strIncludes (jsToLower task.details) k))) = false →
          (generateTaskBreakdownSuggestions task).map (fun s => s.estimatedHours)
            = [jsRound (16 / 3), jsRound (16 / 3 * 2), jsRound (16 / 3)])) := by
  refine ⟨?_, ?_, ?_, ?_⟩
  · intro task
    cases task
    simp [calculateComplexityScore, jsGetOr]
  · intro task
    cases task
    simp [generateTaskBreakdownSuggestions, mkPatternSuggestion, breakdownPatterns, jsGetOr]
  · intro task
    cases task
    simp [generateTaskBreakdownSuggestions, mkPatternSuggestion, breakdownPatterns, jsGetOr]
  · intro task h0
    constructor
    · intro htrig s hs
      rw [suggestions_of_trigger task htrig] at hs
      obtain ⟨p, _, rfl⟩ := List.mem_map.mp hs
      simp [mkPatternSuggestion, h0, jsGetOr]
    · intro hno
      rw [suggestions_of_no_trigger task hno]
      simp [h0, jsGetOr]

/-- C10 witness: with estimatedHours 0 and keyword-free details, the
generic hours come out as round(16/3), round(32/3), round(16/3). -/
theorem zero_treated_as_absent_witness :
    (generateTaskBreakdownSuggestions
        { baseTask with details := "xyz", estimatedHours := some 0 }).map
        (fun s => s.estimatedHours)
      = [jsRound (16 / 3), jsRound (16 / 3 * 2), jsRound (16 / 3)] :=
  (zero_treated_as_absent.2.2.2
    { baseTask with details := "xyz", estimatedHours := some 0 } rfl).2 (by decide)

/-- Auto-creation inner loop under a storage whose creation always
succeeds: one record per suggestion, in order. -/
lemma runSuggestions_all_ok (storage : Storage) (t : ComplexTaskEntry) (now : String)
    (h : ∀ r, storage.createSubtask r = Except.ok ()) (ss : List CreateTaskInput) :
    runSuggestions storage t now ss
      = (Except.ok (), ss.map (fun s => mkSubtaskRecord t s now)) := by
  induction ss with
  | nil => simp [runSuggestions]
  | cons s rest ih => simp [runSuggestions, h, ih]

/-- C7: with a storage whose subtask creation succeeds, auto-creation
issues exactly one createSubtask call per suggestion per complex task, in
order, each carrying the suggestion's name and details, the parent's id
as taskId, the parent's projectId, completed = false and the current
timestamps; in total, the sum over tasks of their suggestion counts. -/
theorem autoCreate_one_call_per_suggestion (storage : Storage) (now : String)
    (cts : List ComplexTaskEntry)
    (h : ∀ r, storage.createSubtask r = Except.ok ()) :
    (autoCreateSubtasksFromSuggestions storage now cts).2
      = cts.flatMap (fun t => t.suggestions.map (fun s =>
          { id := ""
            name := s.name
            details := s.details
            taskId := t.task.id
            projectId := t.task.projectId
            completed := false
            createdAt := now
            updatedAt := now }))
    ∧ ((autoCreateSubtasksFromSuggestions storage now cts).2).length
      = (cts.map (fun t => t.suggestions.length)).sum := by
  have main : autoCreateSubtasksFromSuggestions storage now cts
      = (Except.ok (), cts.flatMap (fun t => t.suggestions.map
          (fun s => mkSubtaskRecord t s now))) := by
    induction cts with
    | nil => simp [autoCreateSubtasksFromSuggestions]
    | cons t rest ih =>
      simp [autoCreateSubtasksFromSuggestions, runSuggestions_all_ok storage t now h, ih]
  constructor
  · rw [main]
    simp [mkSubtaskRecord]
  · rw [main]
    simp
    have hfn : (List.length ∘ fun t : ComplexTaskEntry =>
        List.map (fun s => mkSubtaskRecord t s now) t.suggestions)
        = fun t : ComplexTaskEntry => t.suggestions.length := by
      funext t
      simp [Function.comp]
    rw [hfn]

/-- C7 witness: two complex tasks with three suggestions each produce
exactly six creation calls. -/
theorem autoCreate_one_call_per_suggestion_witness :
    ((autoCreateSubtasksFromSuggestions okStorage "2025-01-01T00:00:00.000Z"
        [demoEntry "t1", demoEntry "t2"]).2).length = 6 := by
  rw [(autoCreate_one_call_per_suggestion okStorage "2025-01-01T00:00:00.000Z"
    [demoEntry "t1", demoEntry "t2"] (fun _ => rfl)).2]
  rfl

/-- C9: the handler converts every failure into an error-flagged text
response at the tool boundary: a missing task for a given id yields the
not-found error text before any analysis or subtask creation; an error
thrown by any storage lookup is caught and rendered with the thrown
value's message when it is an `Error`, else the label "Unknown error". -/
theorem handler_error_boundary :
    (∀ (storage : Storage) (now : String) (args : Args) (tid : String),
      args.taskId = some tid → storage.getTask tid = Except.ok none →
      handler storage now args
        = ({ text := "Error: Task with ID \"" ++ tid ++ "\" not found.", isError := true }, []))
    ∧ (∀ (storage : Storage) (now : String) (args : Args) (tid : String) (e : JsError),
      args.taskId = some tid → storage.getTask tid = Except.error e →
      handler storage now args
        = ({ text := "Error analyzing task complexity: " ++ jsErrorMessage e,
             isError := true }, []))
    ∧ (∀ (storage : Storage) (now : String) (args : Args) (pid : String) (e : JsError),
      args.taskId = none → args.projectId = some pid →
      storage.getTasks pid = Except.error e →
      handler storage now args
        = ({ text := "Error analyzing task complexity: " ++ jsErrorMessage e,
             isError := true }, []))
    ∧ (∀ (storage : Storage) (now : String) (args : Args) (e : JsError),
      args.taskId = none → args.projectId = none →
      storage.getProjects = Except.error e →
      handler storage now args
        = ({ text := "Error analyzing task complexity: " ++ jsErrorMessage e,
             isError := true }, []))
    ∧ (∀ m : String, jsErrorMessage (JsError.errObj m) = m)
    ∧ jsErrorMessage JsError.other = "Unknown error" := by
  refine ⟨?_, ?_, ?_, ?_, fun m => rfl, rfl⟩
  · intro storage now args tid h1 h2
    simp [handler, h1, h2]
  · intro storage now args tid e h1 h2
    simp [handler, catchResponse, h1, h2]
  · intro storage now args pid e h1 h2 h3
    simp [handler, catchResponse, h1, h2, h3]
  · intro storage now args e h1 h2 h3
    simp [handler, catchResponse, h1, h2, h3]

/-- C9 witness: concrete runs for the not-found path, a thrown `Error`
("boom"), and a thrown non-`Error` ("Unknown error"). -/
theorem handler_error_boundary_witness :
    handler okStorage "T" argsWithTask
      = ({ text := "Error: Task with ID \"missing-task\" not found.", isError := true }, [])
    ∧ handler throwStorage "T" argsWithTask
      = ({ text := "Error analyzing task complexity: boom", isError := true }, [])
    ∧ handler throwStorage "T" argsWithProject
      = ({ text := "Error analyzing task complexity: boom", isError := true }, [])
    ∧ handler throwStorage "T" argsAllProjects
      = ({ text := "Error analyzing task complexity: Unknown error", isError := true }, []) := by
  refine ⟨?_, ?_, ?_, ?_⟩
  · exact handler_error_boundary.1 okStorage "T" argsWithTask "missing-task" rfl rfl
  · exact handler_error_boundary.2.1 throwStorage "T" argsWithTask "missing-task"
      (JsError.errObj "boom") rfl rfl
  · exact handler_error_boundary.2.2.1 throwStorage "T" argsWithProject "proj-1"
      (JsError.errObj "boom") rfl rfl rfl
  · exact handler_error_boundary.2.2.2.1 throwStorage "T" argsAllProjects
      JsError.other rfl rfl rfl

/-- C4: for zero complex tasks the rendered report is the summary plus
the all-clear message and nothing more — the early return fires before
the next-step pointer branch, which is dead code, so no pointer to the
next-task-recommendation capability is appended. -/
theorem report_zero_complex_omits_pointer (res : ComplexityAnalysisResult) (threshold : ℚ)
    (autoCreated : Bool) (h : res.complexTasks = []) :
    generateComplexityAnalysisReport res threshold autoCreated
      = ("🔍 **Task Complexity Analysis Report**\n\n📊 **Summary:**\n• Total tasks analyzed: "
          ++ toString res.totalTasksAnalyzed
          ++ "\n• Complex tasks (≥" ++ jsNumToString threshold ++ "): "
          ++ toString res.complexTasks.length
          ++ "\n• Simple tasks (<" ++ jsNumToString threshold ++ "): "
          ++ toString res.simpleTasksCount
          ++ "\n• Average complexity: " ++ toFixed1 res.averageComplexity
          ++ "/10\n\n")
        ++ "✅ **Great news!** All tasks are within the complexity threshold. Your tasks are well-scoped and manageable." := by
  simp [generateComplexityAnalysisReport, h]

/-- C4 witness: a concrete analysis result with no complex task renders
the summary plus the all-clear message only. -/
theorem report_zero_complex_omits_pointer_witness :
    generateComplexityAnalysisReport
        { complexTasks := [], simpleTasksCount := 1, totalTasksAnalyzed := 1,
          averageComplexity := 3 } 7 false
      = ("🔍 **Task Complexity Analysis Report**\n\n📊 **Summary:**\n• Total tasks analyzed: "
          ++ toString (1 : Nat)
          ++ "\n• Complex tasks (≥" ++ jsNumToString 7 ++ "): "
          ++ toString ([] : List ComplexTaskEntry).length
          ++ "\n• Simple tasks (<" ++ jsNumToString 7 ++ "): "
          ++ toString (1 : Nat)
          ++ "\n• Average complexity: " ++ toFixed1 3
          ++ "/10\n\n")
        ++ "✅ **Great news!** All tasks are within the complexity threshold. Your tasks are well-scoped and manageable." :=
  report_zero_complex_omits_pointer
    { complexTasks := [], simpleTasksCount := 1, totalTasksAnalyzed := 1, averageComplexity := 3 }
    7 false rfl

end Agentic
